import Mathlib

/-!
Verification of the similarity scoring pipeline of the Oratio-Postscript
repository (`app/services/similarity_service.py`).

Vectors of IEEE-754 doubles are modelled as lists of real numbers, the
standard idealisation of the float arithmetic used by the code; the spec
itself phrases its numeric claims "up to floating-point tolerance".
Python exceptions are modelled with `Except`: the `raise` statements of the
code become `.error` values carrying the exception class and its payload.
-/

open Classical

/-- The exceptions raised by the similarity service, after
`app/core/exceptions.py`.  `validationError` carries the `message`, the
`field` keyword and the extra `details` dictionary (here the integer-valued
entries the service actually stores); `similarityError` carries its message. -/
inductive ServiceError where
  | validationError (message : String) (field : String) (details : List (String × Nat))
  | similarityError (message : String)

/-- Container for similarity calculation results, after the Python class
`SimilarityResult` with fields `score`, `normalized_score`, `interpretation`. -/
structure SimilarityResult where
  score : ℝ
  normalized_score : ℝ
  interpretation : String

/-- `np.dot` on two equal-length vectors: sum of pointwise products. -/
noncomputable def dot (v1 v2 : List ℝ) : ℝ := (List.zipWith (· * ·) v1 v2).sum

/-- Squared L2 norm of a vector, `‖v‖² = dot v v`. -/
noncomputable def normSq (v : List ℝ) : ℝ := dot v v

/-- `np.clip x lo hi`: clamp `x` into the interval `[lo, hi]`. -/
noncomputable def clip (x lo hi : ℝ) : ℝ := min hi (max lo x)

/-- The default absolute tolerance of `np.allclose` (`atol = 1e-8`). -/
def atol : ℝ := 1e-8

/-- `np.allclose(v, 0)` with the default tolerances: since the comparand is
zero, the relative term vanishes and the test is `|vᵢ| ≤ atol` elementwise. -/
def allcloseZero (v : List ℝ) : Prop := ∀ x ∈ v, |x| ≤ atol

/-- `scipy.spatial.distance.cosine`: the cosine distance
`1 - dot(u,v)/(‖u‖·‖v‖)`. -/
noncomputable def cosineDist (v1 v2 : List ℝ) : ℝ :=
  1 - dot v1 v2 / (Real.sqrt (normSq v1) * Real.sqrt (normSq v2))

/-- `SimilarityService.calculate_cosine_similarity`.  Guards: empty vectors
and dimension mismatch raise `ValidationError` (the mismatch payload carries
both lengths); vectors that are numerically zero under `np.allclose` yield
`0.0`; otherwise the similarity `1 - cosine(v1, v2)` is clamped to
`[-1, 1]` and returned.  Over the reals the `np.isnan` branch of the code is
unreachable (a quotient of reals is a real), and the final
`except`-reraise-as-`SimilarityError` guards arithmetic failures that the
real-number model cannot produce. -/
noncomputable def calculate_cosine_similarity (vector1 vector2 : List ℝ) :
    Except ServiceError ℝ :=
  if vector1 = [] ∨ vector2 = [] then
    .error (.validationError "Vectors cannot be empty" "vectors" [])
  else if vector1.length ≠ vector2.length then
    .error (.validationError
      ("Vector dimensions must match: " ++ toString vector1.length ++ " vs " ++
        toString vector2.length)
      "vector_dimensions"
      [("vector1_dim", vector1.length), ("vector2_dim", vector2.length)])
  else if allcloseZero vector1 ∨ allcloseZero vector2 then
    .ok 0
  else
    .ok (clip (1 - cosineDist vector1 vector2) (-1) 1)

/-- `SimilarityService.normalize_similarity_score`: the affine map
`(score + 1)/2` from `[-1, 1]` to `[0, 1]`, clipped to `[0, 1]`. -/
noncomputable def normalize_similarity_score (cosine_score : ℝ) : ℝ :=
  clip ((cosine_score + 1.0) / 2.0) 0.0 1.0

/-- `SimilarityService.interpret_similarity_score`: seven lower-bound
thresholds checked from highest to lowest, first match wins. -/
noncomputable def interpret_similarity_score (normalized_score : ℝ) : String :=
  if normalized_score ≥ 0.9 then "Very High Similarity"
  else if normalized_score ≥ 0.8 then "High Similarity"
  else if normalized_score ≥ 0.7 then "Moderate-High Similarity"
  else if normalized_score ≥ 0.6 then "Moderate Similarity"
  else if normalized_score ≥ 0.5 then "Low-Moderate Similarity"
  else if normalized_score ≥ 0.3 then "Low Similarity"
  else "Very Low Similarity"

/-- `SimilarityService.calculate_similarity`: raw cosine score, then
normalisation, then interpretation, packed into a `SimilarityResult`;
exceptions from the cosine step propagate. -/
noncomputable def calculate_similarity (vector1 vector2 : List ℝ) :
    Except ServiceError SimilarityResult :=
  match calculate_cosine_similarity vector1 vector2 with
  | .error e => .error e
  | .ok cosine_score =>
    let normalized_score := normalize_similarity_score cosine_score
    .ok { score := cosine_score
          normalized_score := normalized_score
          interpretation := interpret_similarity_score normalized_score }

/-- The sentinel result appended for a failed batch slot:
`SimilarityResult(score=0.0, normalized_score=0.0, interpretation="Calculation Failed")`. -/
noncomputable def failedResult : SimilarityResult :=
  { score := 0, normalized_score := 0, interpretation := "Calculation Failed" }

/-- One iteration of the batch loop: the `try`/`except` around
`calculate_similarity` that replaces any raised exception by the sentinel. -/
noncomputable def batchSlot (reference_vector comparison_vector : List ℝ) :
    SimilarityResult :=
  match calculate_similarity reference_vector comparison_vector with
  | .ok result => result
  | .error _ => failedResult

/-- `SimilarityService.calculate_batch_similarities`: an empty comparison
list raises `ValidationError`; otherwise each comparison vector is processed
in order by the guarded loop body `batchSlot`. -/
noncomputable def calculate_batch_similarities (reference_vector : List ℝ)
    (comparison_vectors : List (List ℝ)) :
    Except ServiceError (List SimilarityResult) :=
  if comparison_vectors = [] then
    .error (.validationError "Comparison vectors list cannot be empty"
      "comparison_vectors" [])
  else
    .ok (comparison_vectors.map (batchSlot reference_vector))

/-! ### Helper lemmas about the arithmetic kernel -/

theorem dot_nil_left (v : List ℝ) : dot [] v = 0 := rfl

theorem dot_nil_right (v : List ℝ) : dot v [] = 0 := by cases v <;> rfl

theorem dot_cons (a b : ℝ) (v1 v2 : List ℝ) :
    dot (a :: v1) (b :: v2) = a * b + dot v1 v2 := rfl

theorem dot_comm (v1 v2 : List ℝ) : dot v1 v2 = dot v2 v1 := by
  induction v1 generalizing v2 with
  | nil => rw [dot_nil_left, dot_nil_right]
  | cons a t ih =>
    cases v2 with
    | nil => rw [dot_nil_left, dot_nil_right]
    | cons b u => rw [dot_cons, dot_cons, ih, mul_comm]

theorem dot_self_nonneg (v : List ℝ) : 0 ≤ dot v v := by
  induction v with
  | nil => rw [dot_nil_left]
  | cons a t ih =>
    rw [dot_cons]
    have := mul_self_nonneg a
    linarith

theorem sq_le_dot_self {x : ℝ} {v : List ℝ} (h : x ∈ v) : x * x ≤ dot v v := by
  induction v with
  | nil => simp at h
  | cons a t ih =>
    rw [dot_cons]
    rcases List.mem_cons.mp h with h1 | h2
    · subst h1
      have := dot_self_nonneg t
      linarith
    · have h3 := ih h2
      have := mul_self_nonneg a
      linarith

theorem dot_self_eq_zero {v : List ℝ} (h : dot v v = 0) : ∀ x ∈ v, x = 0 := by
  intro x hx
  have h1 := sq_le_dot_self hx
  have h2 := mul_self_nonneg x
  have h3 : x * x = 0 := le_antisymm (h ▸ h1) h2
  exact mul_self_eq_zero.mp h3

theorem clip_le_hi (x lo hi : ℝ) : clip x lo hi ≤ hi := min_le_left _ _

theorem lo_le_clip (x lo hi : ℝ) (h : lo ≤ hi) : lo ≤ clip x lo hi :=
  le_min h (le_max_left _ _)

theorem clip_of_mem {x lo hi : ℝ} (h1 : lo ≤ x) (h2 : x ≤ hi) : clip x lo hi = x := by
  rw [clip, max_eq_right h1, min_eq_right h2]

theorem normSq_pos_of_not_allcloseZero {v : List ℝ} (h : ¬ allcloseZero v) :
    0 < normSq v := by
  rw [allcloseZero] at h
  push_neg at h
  obtain ⟨x, hx, hgt⟩ := h
  have h1 : x * x ≤ normSq v := sq_le_dot_self hx
  have h2 : 0 < |x| := lt_of_le_of_lt (by norm_num [atol]) hgt
  have h3 : 0 < x * x := by
    rw [← abs_mul_abs_self]
    exact mul_pos h2 h2
  linarith

theorem one_sub_cosineDist_self {v : List ℝ} (h : normSq v ≠ 0) :
    1 - cosineDist v v = 1 := by
  rw [cosineDist, Real.mul_self_sqrt (show (0:ℝ) ≤ normSq v from dot_self_nonneg v)]
  have hd : dot v v / normSq v = 1 := div_self h
  rw [hd]
  ring

/-! ### Evaluation helpers for the service functions -/

theorem cosine_ok_zero_of_allclose {v1 v2 : List ℝ} (h1 : v1 ≠ []) (h2 : v2 ≠ [])
    (hl : v1.length = v2.length) (ha : allcloseZero v1 ∨ allcloseZero v2) :
    calculate_cosine_similarity v1 v2 = .ok 0 := by
  rw [calculate_cosine_similarity, if_neg (by simp [h1, h2]), if_neg (by simp [hl]),
    if_pos ha]

theorem cosine_ok_bounds {v1 v2 : List ℝ} {r : ℝ}
    (h : calculate_cosine_similarity v1 v2 = .ok r) : -1 ≤ r ∧ r ≤ 1 := by
  rw [calculate_cosine_similarity] at h
  split_ifs at h
  · cases h
    exact ⟨by norm_num, by norm_num⟩
  · cases h
    exact ⟨lo_le_clip _ _ _ (by norm_num), clip_le_hi _ _ _⟩

theorem cosine_ok_of_valid (v1 v2 : List ℝ) (h1 : v1 ≠ []) (h2 : v2 ≠ [])
    (hl : v1.length = v2.length) :
    ∃ c, calculate_cosine_similarity v1 v2 = .ok c := by
  rw [calculate_cosine_similarity, if_neg (by simp [h1, h2]), if_neg (by simp [hl])]
  split_ifs <;> exact ⟨_, rfl⟩

theorem cosineDist_comm (v1 v2 : List ℝ) : cosineDist v1 v2 = cosineDist v2 v1 := by
  rw [cosineDist, cosineDist, dot_comm, mul_comm]

theorem calc_sim_normalized {v1 v2 : List ℝ} {r : SimilarityResult}
    (h : calculate_similarity v1 v2 = .ok r) :
    r.normalized_score = normalize_similarity_score r.score := by
  rw [calculate_similarity] at h
  cases hc : calculate_cosine_similarity v1 v2 with
  | error e => rw [hc] at h; cases h
  | ok c => rw [hc] at h; cases h; rfl

theorem calc_sim_ok_of_valid (v1 v2 : List ℝ) (h1 : v1 ≠ []) (h2 : v2 ≠ [])
    (hl : v1.length = v2.length) :
    ∃ r, calculate_similarity v1 v2 = .ok r ∧
      calculate_cosine_similarity v1 v2 = .ok r.score := by
  obtain ⟨c, hc⟩ := cosine_ok_of_valid v1 v2 h1 h2 hl
  exact ⟨_, by rw [calculate_similarity, hc], hc⟩

theorem calc_sim_error_of_invalid {ref c : List ℝ}
    (h : ref = [] ∨ c = [] ∨ ref.length ≠ c.length) :
    ∃ e, calculate_similarity ref c = .error e := by
  have hcos : ∃ e, calculate_cosine_similarity ref c = .error e := by
    by_cases he : ref = [] ∨ c = []
    · exact ⟨_, by rw [calculate_cosine_similarity, if_pos he]⟩
    · have hl : ref.length ≠ c.length := by
        rcases h with h | h | h
        · exact absurd (Or.inl h) he
        · exact absurd (Or.inr h) he
        · exact h
      exact ⟨_, by rw [calculate_cosine_similarity, if_neg he, if_pos hl]⟩
  obtain ⟨e, he⟩ := hcos
  exact ⟨e, by rw [calculate_similarity, he]⟩

theorem batchSlot_eq_failed {ref c : List ℝ} {e : ServiceError}
    (h : calculate_similarity ref c = .error e) : batchSlot ref c = failedResult := by
  unfold batchSlot
  rw [h]

theorem interpret_half_eval : interpret_similarity_score (1 / 2) = "Low-Moderate Similarity" := by
  rw [interpret_similarity_score, if_neg (by norm_num), if_neg (by norm_num),
    if_neg (by norm_num), if_neg (by norm_num), if_pos (by norm_num)]

theorem calc_sim_eval_zero {v1 v2 : List ℝ}
    (h : calculate_cosine_similarity v1 v2 = .ok 0) :
    calculate_similarity v1 v2 = .ok ⟨0, 1 / 2, "Low-Moderate Similarity"⟩ := by
  have hn : normalize_similarity_score 0 = 1 / 2 := by
    rw [normalize_similarity_score, clip_of_mem (by norm_num) (by norm_num)]
    norm_num
  rw [calculate_similarity, h]
  simp only [hn, interpret_half_eval]

theorem calc_sim_zero_eval :
    calculate_similarity [0] [0] = .ok ⟨0, 1 / 2, "Low-Moderate Similarity"⟩ :=
  calc_sim_eval_zero (cosine_ok_zero_of_allclose (by simp) (by simp) rfl
    (Or.inl (by intro x hx; simp at hx; rw [hx]; norm_num [atol])))

theorem batch_single_empty_eval :
    calculate_batch_similarities [1] [[]] = .ok [failedResult] := by
  obtain ⟨e, he⟩ := @calc_sim_error_of_invalid [1] [] (Or.inr (Or.inl rfl))
  rw [calculate_batch_similarities, if_neg (by simp)]
  rw [show List.map (batchSlot [1]) [[]] = [batchSlot [1] []] from rfl,
    batchSlot_eq_failed he]

/-! ### Claims -/

/-- C4: the interpretation classifier maps normalized scores through seven
ordered tiers with fixed lower bounds, highest first: exactly `0.90` gives
"Very High Similarity", `0.899999` gives "High Similarity", `0.0` gives
"Very Low Similarity", `1.0` gives "Very High Similarity", and every input
lands in one of the seven labels. -/
theorem claim_C4_interpret_tiers :
    interpret_similarity_score 0.9 = "Very High Similarity" ∧
    interpret_similarity_score 0.899999 = "High Similarity" ∧
    interpret_similarity_score 0 = "Very Low Similarity" ∧
    interpret_similarity_score 1 = "Very High Similarity" ∧
    ∀ x : ℝ, interpret_similarity_score x ∈
      ["Very High Similarity", "High Similarity", "Moderate-High Similarity",
       "Moderate Similarity", "Low-Moderate Similarity", "Low Similarity",
       "Very Low Similarity"] := by
  refine ⟨?_, ?_, ?_, ?_, ?_⟩
  · rw [interpret_similarity_score, if_pos (by norm_num)]
  · rw [interpret_similarity_score, if_neg (by norm_num), if_pos (by norm_num)]
  · rw [interpret_similarity_score, if_neg (by norm_num), if_neg (by norm_num),
      if_neg (by norm_num), if_neg (by norm_num), if_neg (by norm_num),
      if_neg (by norm_num)]
  · rw [interpret_similarity_score, if_pos (by norm_num)]
  · intro x
    rw [interpret_similarity_score]
    split_ifs <;> simp

/-- C10: the interpretation classifier is total over all real inputs: any
score above `1.0` yields "Very High Similarity" and any score below `0.0`
yields "Very Low Similarity", so out-of-range inputs take the nearest
boundary tier and never fail. -/
theorem claim_C10_interpret_total (x : ℝ) :
    (x > 1 → interpret_similarity_score x = "Very High Similarity") ∧
    (x < 0 → interpret_similarity_score x = "Very Low Similarity") := by
  constructor
  · intro h
    rw [interpret_similarity_score, if_pos (by linarith)]
  · intro h
    rw [interpret_similarity_score,
      if_neg (not_le.mpr (by linarith)), if_neg (not_le.mpr (by linarith)),
      if_neg (not_le.mpr (by linarith)), if_neg (not_le.mpr (by linarith)),
      if_neg (not_le.mpr (by linarith)), if_neg (not_le.mpr (by linarith))]

/-- Witness for C10 at the concrete out-of-range inputs `2` and `-1`. -/
theorem claim_C10_interpret_total_witness :
    interpret_similarity_score 2 = "Very High Similarity" ∧
    interpret_similarity_score (-1) = "Very Low Similarity" :=
  ⟨(claim_C10_interpret_total 2).1 (by norm_num),
   (claim_C10_interpret_total (-1)).2 (by norm_num)⟩

/-- C5: on equal-length non-empty vectors, a (numerically) zero L2 norm on
either side makes `calculate_cosine_similarity` return exactly `0.0`
normally, with no exception raised. -/
theorem claim_C5_zero_vector (v1 v2 : List ℝ) (h1 : v1 ≠ []) (h2 : v2 ≠ [])
    (hl : v1.length = v2.length) (hz : normSq v1 = 0 ∨ normSq v2 = 0) :
    calculate_cosine_similarity v1 v2 = .ok 0 := by
  apply cosine_ok_zero_of_allclose h1 h2 hl
  rcases hz with hz | hz
  · left
    intro x hx
    rw [dot_self_eq_zero hz x hx]
    norm_num [atol]
  · right
    intro x hx
    rw [dot_self_eq_zero hz x hx]
    norm_num [atol]

/-- Witness for C5 at the claim's own instance: `[0,0,0]` against `[1,2,3]`
yields raw score exactly `0.0`. -/
theorem claim_C5_zero_vector_witness :
    calculate_cosine_similarity [0, 0, 0] [1, 2, 3] = .ok 0 :=
  claim_C5_zero_vector [0, 0, 0] [1, 2, 3] (by simp) (by simp) rfl
    (Or.inl (by norm_num [normSq, dot]))

/-- C6: `calculate_cosine_similarity` raises `ValidationError` whenever a
vector is empty, and on a length mismatch between non-empty vectors it
raises a `ValidationError` whose details payload carries both lengths. -/
theorem claim_C6_validation (v1 v2 : List ℝ) :
    ((v1 = [] ∨ v2 = []) →
      calculate_cosine_similarity v1 v2 =
        .error (.validationError "Vectors cannot be empty" "vectors" [])) ∧
    (v1 ≠ [] → v2 ≠ [] → v1.length ≠ v2.length →
      ∃ m, calculate_cosine_similarity v1 v2 =
        .error (.validationError m "vector_dimensions"
          [("vector1_dim", v1.length), ("vector2_dim", v2.length)])) := by
  constructor
  · intro h
    rw [calculate_cosine_similarity, if_pos h]
  · intro h1 h2 hl
    exact ⟨_, by rw [calculate_cosine_similarity, if_neg (by simp [h1, h2]), if_pos hl]⟩

/-- Witness for C6: an empty first vector raises the empty-vector error, and
lengths 2 vs 3 raise the mismatch error carrying 2 and 3. -/
theorem claim_C6_validation_witness :
    calculate_cosine_similarity [] [1] =
      .error (.validationError "Vectors cannot be empty" "vectors" []) ∧
    ∃ m, calculate_cosine_similarity [1, 2] [1, 2, 3] =
      .error (.validationError m "vector_dimensions"
        [("vector1_dim", 2), ("vector2_dim", 3)]) :=
  ⟨(claim_C6_validation [] [1]).1 (Or.inl rfl),
   (claim_C6_validation [1, 2] [1, 2, 3]).2 (by simp) (by simp) (by norm_num)⟩

/-- C7: whenever `calculate_similarity` returns normally on equal-length
non-empty vectors, the raw score lies in `[-1, 1]` and the normalized score
lies in `[0, 1]`. -/
theorem claim_C7_range (v1 v2 : List ℝ) (r : SimilarityResult) (h1 : v1 ≠ [])
    (h2 : v2 ≠ []) (hl : v1.length = v2.length)
    (h : calculate_similarity v1 v2 = .ok r) :
    -1 ≤ r.score ∧ r.score ≤ 1 ∧ 0 ≤ r.normalized_score ∧ r.normalized_score ≤ 1 := by
  have hn := calc_sim_normalized h
  have hs : calculate_cosine_similarity v1 v2 = .ok r.score := by
    rw [calculate_similarity] at h
    cases hc : calculate_cosine_similarity v1 v2 with
    | error e => rw [hc] at h; cases h
    | ok c => rw [hc] at h; cases h; rfl
  obtain ⟨hb1, hb2⟩ := cosine_ok_bounds hs
  refine ⟨hb1, hb2, ?_, ?_⟩
  · rw [hn, normalize_similarity_score]
    have hb := lo_le_clip ((r.score + 1.0) / 2.0) 0.0 1.0 (by norm_num)
    linarith
  · rw [hn, normalize_similarity_score]
    have hb := clip_le_hi ((r.score + 1.0) / 2.0) 0.0 1.0
    linarith

/-- Witness for C7 at `[0]` vs `[0]`, which succeeds with raw score `0` and
normalized score `1/2`. -/
theorem claim_C7_range_witness :
    -1 ≤ (SimilarityResult.mk 0 (1 / 2) "Low-Moderate Similarity").score ∧
    (SimilarityResult.mk 0 (1 / 2) "Low-Moderate Similarity").score ≤ 1 ∧
    0 ≤ (SimilarityResult.mk 0 (1 / 2) "Low-Moderate Similarity").normalized_score ∧
    (SimilarityResult.mk 0 (1 / 2) "Low-Moderate Similarity").normalized_score ≤ 1 :=
  claim_C7_range [0] [0] ⟨0, 1 / 2, "Low-Moderate Similarity"⟩ (by simp) (by simp)
    rfl calc_sim_zero_eval

/-- C8: on equal-length non-empty vectors the comparison is symmetric — both
orders succeed and produce the same raw score. -/
theorem claim_C8_symmetry (v1 v2 : List ℝ) (h1 : v1 ≠ []) (h2 : v2 ≠ [])
    (hl : v1.length = v2.length) :
    ∃ r1 r2, calculate_similarity v1 v2 = .ok r1 ∧
      calculate_similarity v2 v1 = .ok r2 ∧ r1.score = r2.score := by
  have hsym : calculate_cosine_similarity v1 v2 = calculate_cosine_similarity v2 v1 := by
    rw [calculate_cosine_similarity, calculate_cosine_similarity]
    by_cases he : v1 = [] ∨ v2 = []
    · rw [if_pos he, if_pos (Or.symm he)]
    · rw [if_neg he, if_neg (show ¬(v2 = [] ∨ v1 = []) from fun h => he (Or.symm h)),
        if_neg (show ¬(v1.length ≠ v2.length) from by simp [hl]),
        if_neg (show ¬(v2.length ≠ v1.length) from by simp [hl])]
      by_cases ha : allcloseZero v1 ∨ allcloseZero v2
      · rw [if_pos ha, if_pos (Or.symm ha)]
      · rw [if_neg ha,
          if_neg (show ¬(allcloseZero v2 ∨ allcloseZero v1) from fun h => ha (Or.symm h)),
          cosineDist_comm]
  obtain ⟨r1, ho1, hs1⟩ := calc_sim_ok_of_valid v1 v2 h1 h2 hl
  obtain ⟨r2, ho2, hs2⟩ := calc_sim_ok_of_valid v2 v1 h2 h1 hl.symm
  refine ⟨r1, r2, ho1, ho2, ?_⟩
  rw [hsym, hs2] at hs1
  exact (Except.ok.inj hs1).symm

/-- Witness for C8 at `[1, 2]` vs `[3, 4]`. -/
theorem claim_C8_symmetry_witness :
    ∃ r1 r2, calculate_similarity [1, 2] [3, 4] = .ok r1 ∧
      calculate_similarity [3, 4] [1, 2] = .ok r2 ∧ r1.score = r2.score :=
  claim_C8_symmetry [1, 2] [3, 4] (by simp) (by simp) rfl

/-- C3: on a non-empty candidate list the batch call returns normally with
exactly one result per candidate in input order; a slot whose computation
raised an error holds the sentinel `failedResult`, and a slot whose
computation succeeded holds that successful result. -/
theorem claim_C3_batch_isolation (ref : List ℝ) (cmps : List (List ℝ))
    (h : cmps ≠ []) :
    ∃ rs, calculate_batch_similarities ref cmps = .ok rs ∧
      rs.length = cmps.length ∧
      ∀ (i : ℕ) (hi : i < cmps.length) (hi2 : i < rs.length),
        calculate_similarity ref (cmps.get ⟨i, hi⟩) = .ok (rs.get ⟨i, hi2⟩) ∨
        ((∃ e, calculate_similarity ref (cmps.get ⟨i, hi⟩) = .error e) ∧
          rs.get ⟨i, hi2⟩ = failedResult) := by
  refine ⟨cmps.map (batchSlot ref), ?_, by simp, ?_⟩
  · rw [calculate_batch_similarities, if_neg h]
  · intro i hi hi2
    have hg : (cmps.map (batchSlot ref)).get ⟨i, hi2⟩ = batchSlot ref (cmps.get ⟨i, hi⟩) := by
      simp
    rw [hg]
    unfold batchSlot
    cases hc : calculate_similarity ref (cmps.get ⟨i, hi⟩) with
    | ok r => exact Or.inl rfl
    | error e => exact Or.inr ⟨⟨e, rfl⟩, rfl⟩

/-- Witness for C3 on the candidate list `[[1], []]`: the batch call is
applied with its non-emptiness hypothesis discharged. -/
theorem claim_C3_batch_isolation_witness :
    ∃ rs, calculate_batch_similarities [1] [[1], []] = .ok rs ∧
      rs.length = ([[1], []] : List (List ℝ)).length ∧
      ∀ (i : ℕ) (hi : i < ([[1], []] : List (List ℝ)).length) (hi2 : i < rs.length),
        calculate_similarity [1] (([[1], []] : List (List ℝ)).get ⟨i, hi⟩) =
          .ok (rs.get ⟨i, hi2⟩) ∨
        ((∃ e, calculate_similarity [1] (([[1], []] : List (List ℝ)).get ⟨i, hi⟩) =
          .error e) ∧ rs.get ⟨i, hi2⟩ = failedResult) :=
  claim_C3_batch_isolation [1] [[1], []] (by simp)

/-- C9: a batch call with a non-empty candidate list never raises, even when
the reference vector is invalid — if the reference is empty or mismatches
every candidate in length, every slot is the sentinel — while the empty
candidate list is the one case that raises `ValidationError`. -/
theorem claim_C9_ref_error_swallowed (ref : List ℝ) (cmps : List (List ℝ))
    (h : cmps ≠ []) :
    ((ref = [] ∨ ∀ c ∈ cmps, ref.length ≠ c.length) →
      calculate_batch_similarities ref cmps = .ok (cmps.map fun _ => failedResult)) ∧
    (∀ e, calculate_batch_similarities ref cmps ≠ .error e) ∧
    calculate_batch_similarities ref [] =
      .error (.validationError "Comparison vectors list cannot be empty"
        "comparison_vectors" []) := by
  refine ⟨?_, ?_, by rw [calculate_batch_similarities, if_pos rfl]⟩
  · intro hbad
    rw [calculate_batch_similarities, if_neg h]
    congr 1
    apply List.map_congr_left
    intro c hc
    have hinv : ref = [] ∨ c = [] ∨ ref.length ≠ c.length := by
      rcases hbad with hbad | hbad
      · exact Or.inl hbad
      · exact Or.inr (Or.inr (hbad c hc))
    obtain ⟨e, he⟩ := calc_sim_error_of_invalid hinv
    exact batchSlot_eq_failed he
  · intro e
    rw [calculate_batch_similarities, if_neg h]
    simp

/-- Witness for C9 with the empty reference vector against `[[1]]`: the batch
still returns normally, with the single slot holding the sentinel. -/
theorem claim_C9_ref_error_swallowed_witness :
    calculate_batch_similarities [] [[1]] =
      .ok (([[1]] : List (List ℝ)).map fun _ => failedResult) :=
  (claim_C9_ref_error_swallowed [] [[1]] (by simp)).1 (Or.inl rfl)

/-- C1 counterexample: a batch slot whose computation failed carries the
sentinel `(score = 0, normalized_score = 0)`, and `0` is not
`clip ((0 + 1)/2) 0 1 = 1/2` — so not every produced `SimilarityResult`
satisfies the claimed normalisation invariant. -/
theorem claim_C1_counterexample :
    calculate_batch_similarities [1] [[]] = .ok [failedResult] ∧
    failedResult.normalized_score ≠ normalize_similarity_score failedResult.score := by
  refine ⟨batch_single_empty_eval, ?_⟩
  rw [failedResult, normalize_similarity_score]
  rw [clip_of_mem (by norm_num) (by norm_num)]
  norm_num

/-- C1 (amended): every result returned by `calculate_similarity` satisfies
`normalized_score = clip ((score + 1)/2, 0, 1)`, and every slot of
`calculate_batch_similarities` either satisfies that invariant or is the
failure sentinel `failedResult` (whose fields are `score = 0`,
`normalized_score = 0`). -/
theorem claim_C1_normalized_invariant (v1 v2 ref : List ℝ) (cmps : List (List ℝ)) :
    (∀ r, calculate_similarity v1 v2 = .ok r →
      r.normalized_score = normalize_similarity_score r.score) ∧
    (∀ rs, calculate_batch_similarities ref cmps = .ok rs → ∀ r ∈ rs,
      r.normalized_score = normalize_similarity_score r.score ∨ r = failedResult) := by
  constructor
  · intro r h
    exact calc_sim_normalized h
  · intro rs hrs r hr
    rw [calculate_batch_similarities] at hrs
    split_ifs at hrs
    cases hrs
    obtain ⟨c, hc, hbc⟩ := List.mem_map.mp hr
    rw [← hbc]
    unfold batchSlot
    cases hcs : calculate_similarity ref c with
    | ok res => exact Or.inl (calc_sim_normalized hcs)
    | error e => exact Or.inr rfl

/-- Witness for C1 (amended): the successful comparison `[0]` vs `[0]` and
the failed batch slot of `[1]` vs `[[]]` both satisfy the amended invariant. -/
theorem claim_C1_normalized_invariant_witness :
    ((⟨0, 1 / 2, "Low-Moderate Similarity"⟩ : SimilarityResult).normalized_score =
      normalize_similarity_score
        (⟨0, 1 / 2, "Low-Moderate Similarity"⟩ : SimilarityResult).score) ∧
    (failedResult.normalized_score = normalize_similarity_score failedResult.score ∨
      failedResult = failedResult) :=
  ⟨(claim_C1_normalized_invariant [0] [0] [1] [[]]).1
      ⟨0, 1 / 2, "Low-Moderate Similarity"⟩ calc_sim_zero_eval,
   (claim_C1_normalized_invariant [0] [0] [1] [[]]).2
      [failedResult] batch_single_empty_eval failedResult (by simp)⟩

/-- C2 counterexample: `[1e-9]` is a non-zero vector, yet its self-comparison
returns raw score exactly `0`, not `1` — the `np.allclose` zero test treats
any vector with all entries of magnitude at most `1e-8` as zero. -/
theorem claim_C2_counterexample :
    (1e-9 : ℝ) ≠ 0 ∧
    calculate_similarity [1e-9] [1e-9] = .ok ⟨0, 1 / 2, "Low-Moderate Similarity"⟩ ∧
    (0 : ℝ) ≠ 1 := by
  refine ⟨by norm_num, ?_, by norm_num⟩
  apply calc_sim_eval_zero
  apply cosine_ok_zero_of_allclose (by simp) (by simp) rfl
  left
  intro x hx
  simp only [List.mem_singleton] at hx
  rw [hx, abs_of_nonneg (show (0:ℝ) ≤ 1e-9 by norm_num)]
  norm_num [atol]

/-- C2 (amended): self-comparison of any vector that is not numerically zero
under the `np.allclose` test (some entry exceeds `1e-8` in magnitude)
succeeds with raw score exactly `1`. -/
theorem claim_C2_self_similarity (v : List ℝ) (h : ¬ allcloseZero v) :
    ∃ r, calculate_similarity v v = .ok r ∧ r.score = 1 := by
  have hv : v ≠ [] := by
    intro he
    subst he
    exact h (by intro x hx; simp at hx)
  have hpos : 0 < normSq v := normSq_pos_of_not_allcloseZero h
  have hc : calculate_cosine_similarity v v = .ok 1 := by
    rw [calculate_cosine_similarity, if_neg (by simp [hv]), if_neg (by simp),
      if_neg (show ¬(allcloseZero v ∨ allcloseZero v) from by simp [h])]
    rw [one_sub_cosineDist_self (ne_of_gt hpos)]
    rw [clip_of_mem (by norm_num) le_rfl]
  refine ⟨⟨1, normalize_similarity_score 1,
    interpret_similarity_score (normalize_similarity_score 1)⟩, ?_, rfl⟩
  rw [calculate_similarity, hc]

/-- Witness for C2 (amended) at `v = [1]`. -/
theorem claim_C2_self_similarity_witness :
    ∃ r, calculate_similarity [1] [1] = .ok r ∧ r.score = 1 :=
  claim_C2_self_similarity [1] (by norm_num [allcloseZero, atol])
